import Mathlib

/-!
# Verification of `start.py` (suna local development supervisor)

Shallow embedding of the start/stop helper `src/start.py`. Pure decision
logic (JSON-backed setup-state resolution, environment-file regeneration
policy, prompt evaluation) is translated into executable Lean functions;
the effectful control flow of `main`, `start_manual_services`,
`stop_manual_services` and the docker helpers is translated into pure
functions from an explicit system state (`Sys`, holding the results every
external probe would return) to a trace of side-effect events plus an
outcome (exit code or uncaught Python exception).
-/

namespace Suna

/-! ## JSON values, as returned by `json.load` -/

/-- A JSON value (numbers restricted to integers; `start.py` only ever
inspects strings and objects, so this loses nothing relevant). -/
inductive JVal where
  | jnull
  | jbool (b : Bool)
  | jnum (n : Int)
  | jstr (s : String)
  | jarr (xs : List JVal)
  | jobj (kvs : List (String × JVal))

/-- Observable states of the `.setup_progress` file: absent, present but not
valid JSON (`json.load` raises), or present and parsed to a JSON value. -/
inductive ProgressFile where
  | missing
  | unparsable
  | parsed (v : JVal)

/-- Python exceptions that the embedded fragments can leave uncaught. -/
inductive PyError where
  | attributeError
  | unboundLocal
deriving DecidableEq, Repr

/-- Dictionary lookup as built by `json.load`: with duplicate keys the last
binding wins (Python dict insertion overwrites). -/
def jlookup (k : String) : List (String × JVal) → Option JVal
  | [] => none
  | (k', v) :: rest =>
    match jlookup k rest with
    | some r => some r
    | none => if k' = k then some v else none

/-- `load_progress` (start.py:36-43): returns the parsed JSON, or
`{"step": 0, "data": {}}` when the file is absent or `json.load` raises. -/
def load_progress : ProgressFile → JVal
  | .missing => .jobj [("step", .jnum 0), ("data", .jobj [])]
  | .unparsable => .jobj [("step", .jnum 0), ("data", .jobj [])]
  | .parsed v => v

/-- The shared body of `get_setup_method`/`get_supabase_setup_method`
(start.py:48-55): `load_progress().get("data", {}).get(key)`.  Python's
`.get` only exists on dicts, so a parsed top-level non-object, or a
non-object `"data"` member, raises `AttributeError`. -/
def getDataField (pf : ProgressFile) (key : String) : Except PyError (Option JVal) :=
  match load_progress pf with
  | .jobj kvs =>
    match (jlookup "data" kvs).getD (.jobj []) with
    | .jobj dkvs => .ok (jlookup key dkvs)
    | _ => .error .attributeError
  | _ => .error .attributeError

/-- `get_setup_method` (start.py:48-50). -/
def get_setup_method (pf : ProgressFile) : Except PyError (Option JVal) :=
  getDataField pf "setup_method"

/-- `get_supabase_setup_method` (start.py:53-55). -/
def get_supabase_setup_method (pf : ProgressFile) : Except PyError (Option JVal) :=
  getDataField pf "supabase_setup_method"

/-- Python truthiness of a JSON value (`if not setup_method:`). -/
def jTruthy : JVal → Bool
  | .jnull => false
  | .jbool b => b
  | .jnum n => n != 0
  | .jstr s => s != ""
  | .jarr xs => !xs.isEmpty
  | .jobj kvs => !kvs.isEmpty

/-- Truthiness of `Optional` values: `None` is falsy. -/
def truthy : Option JVal → Bool
  | none => false
  | some v => jTruthy v

/-- Python `x == "lit"` where `x : Optional[JVal]`: true exactly when `x`
is that string. -/
def optIsStr (m : Option JVal) (s : String) : Bool :=
  match m with
  | some (.jstr t) => t = s
  | _ => false

/-- The `.setup_progress` file exists on disk (`os.path.exists`). -/
def progressExists : ProgressFile → Bool
  | .missing => false
  | _ => true

/-- The parsed progress value has the shape the code expects
(`{"step": int, "data": {...}}` per the spec): a top-level object whose
`"data"` member, when present, is an object.  Reading the setup method
raises `AttributeError` exactly outside this set. -/
def progressReadable : ProgressFile → Bool
  | .missing => true
  | .unparsable => true
  | .parsed v =>
    match v with
    | .jobj kvs =>
      match (jlookup "data" kvs).getD (.jobj []) with
      | .jobj _ => true
      | _ => false
    | _ => false

/-! ## Python string primitives used by the env-file freshness check -/

/-- Python `str.isspace` characters relevant to `.strip()`. -/
def pyIsSpace (c : Char) : Bool :=
  c = ' ' || c = '\t' || c = '\n' || c = '\r' || c = '\x0b' || c = '\x0c'

/-- Drop leading whitespace. -/
def dropSpaceL : List Char → List Char
  | [] => []
  | c :: cs => if pyIsSpace c then dropSpaceL cs else c :: cs

/-- Python `str.strip()` on a character list. -/
def pyStrip (l : List Char) : List Char :=
  (dropSpaceL (dropSpaceL l).reverse).reverse

/-- Python `str.lower()` (ASCII suffices for the prompt answers used). -/
def pyLower (l : List Char) : List Char := l.map Char.toLower

/-- `s.startswith(p)` on character lists (first arg the string, second the
pattern). -/
def startsWithL : List Char → List Char → Bool
  | _, [] => true
  | [], _ :: _ => false
  | c :: cs, p :: ps => c = p && startsWithL cs ps

/-- Python `pat in s` substring containment. -/
def hasSub (pat : List Char) : List Char → Bool
  | [] => startsWithL [] pat
  | c :: cs => startsWithL (c :: cs) pat || hasSub pat cs

/-- Worker for `splitLinesL`. -/
def splitLinesGo (cur : List Char) : List Char → List (List Char)
  | [] => [cur.reverse]
  | '\r' :: '\n' :: rest =>
    cur.reverse :: (match rest with | [] => [] | _ => splitLinesGo [] rest)
  | '\n' :: rest =>
    cur.reverse :: (match rest with | [] => [] | _ => splitLinesGo [] rest)
  | '\r' :: rest =>
    cur.reverse :: (match rest with | [] => [] | _ => splitLinesGo [] rest)
  | c :: rest => splitLinesGo (c :: cur) rest

/-- Python `str.splitlines()`: no trailing empty line, `"" ↦ []`. -/
def splitLinesL : List Char → List (List Char)
  | [] => []
  | c :: cs => splitLinesGo [] (c :: cs)

/-- Everything after the first `'='` (Python `s.split("=", 1)[1]`; only
applied by the code to lines known to contain `'='`). -/
def afterFirstEq : List Char → List Char
  | [] => []
  | '=' :: rest => rest
  | _ :: rest => afterFirstEq rest

/-- The required secret key marker, `"SUPABASE_JWT_SECRET="`. -/
def jwtKeyL : List Char :=
  ['S','U','P','A','B','A','S','E','_','J','W','T','_','S','E','C','R','E','T','=']

/-- The lines selected by start.py:170:
`[ln for ln in content.splitlines() if ln.strip().startswith("SUPABASE_JWT_SECRET=")]`. -/
def keyLines (content : List Char) : List (List Char) :=
  (splitLinesL content).filter (fun ln => startsWithL (pyStrip ln) jwtKeyL)

/-! ## Environment regeneration decision (start.py:153-181)

`env` is the state of `backend/.env`: `none` when absent, otherwise its
mtime and full content.  `progMtime` is the mtime of `.setup_progress`
(the code only enters this check when that file exists). -/

/-- The `should_regen` flag computed by `start_manual_services`
(start.py:158-176): mtime comparison with an absent env file counted as
mtime 0, then the crude `SUPABASE_JWT_SECRET` check, which can only turn
the flag on. -/
def should_regen (progMtime : Nat) (env : Option (Nat × List Char)) : Bool :=
  let envMtime := match env with | none => 0 | some (m, _) => m
  let r0 := decide (envMtime < progMtime)
  match env with
  | none => r0
  | some (_, content) =>
    if hasSub jwtKeyL content then
      match keyLines content with
      | [] => r0
      | ln :: _ => if (pyStrip (afterFirstEq ln)).isEmpty then true else r0
    else true

/-- There is a line actually defining the required key. -/
def hasKeyLine (content : List Char) : Bool :=
  !(keyLines content).isEmpty

/-- The first line defining the key assigns it an empty (whitespace-only)
value. -/
def keyValEmpty (content : List Char) : Bool :=
  match keyLines content with
  | [] => false
  | ln :: _ => (pyStrip (afterFirstEq ln)).isEmpty

/-- The regeneration condition as the spec words it: file absent, or
stale (env mtime strictly below setup-store mtime), or required key
absent, or required key empty. -/
def specRegenCondition (progMtime : Nat) (env : Option (Nat × List Char)) : Bool :=
  match env with
  | none => true
  | some (m, content) =>
    decide (m < progMtime) || !hasKeyLine content || keyValEmpty content

/-- The regeneration condition the code actually implements, stated in
closed disjunctive form: an absent file triggers only when the store's
mtime is positive, and "key absent" is detected by a substring scan of the
whole content, so content mentioning the key name only inside another
token does not count as absent. -/
def codeRegenCondition (progMtime : Nat) (env : Option (Nat × List Char)) : Bool :=
  match env with
  | none => decide (0 < progMtime)
  | some (m, content) =>
    decide (m < progMtime)
      || !hasSub jwtKeyL content
      || (hasSub jwtKeyL content && keyValEmpty content)

/-! ## Side-effect events and system state -/

/-- Observable side effects of one invocation, in order.  Prints that
carry no decision content are tagged `printInfo`. -/
inductive Event where
  | printHelp
  | warnNoSetup
  | printInfo (tag : String)
  | printInstructions
  | promptStopDocker
  | promptStartDocker
  | promptStartRedisWin
  | promptStopManual
  | dockerInfoCheck
  | composePs
  | composePsRedis
  | pgrepCheck (pat : String)
  | composeUpAll
  | composeDownAll
  | composeUpInfra
  | composeUpRedis
  | pkillB
  | pkillF
  | pkillW
  | truncateLog (i : Nat)
  | envRegenAttempt
  | importCheck (module : String)
  | spawnBackend
  | spawnFrontend
  | spawnWorker
  | sleepSec (n : Nat)
  | tailLogs
deriving DecidableEq, Repr

/-- Result of one invocation: a normal exit code, or an uncaught Python
exception (which the interpreter turns into a traceback and exit 1). -/
inductive Outcome where
  | exitCode (n : Nat)
  | uncaught (e : PyError)
deriving DecidableEq, Repr

/-- Everything the environment would answer to the probes `start.py`
performs, fixed for one invocation.  Fields named after the source checks
they feed.  `rcB/rcF/rcW/rcDown` are the exit codes of the three `pkill`
calls and the `docker compose down` in `stop_manual_services`; the code
runs them without `check=True`, so they are accepted but ignored. -/
structure Sys where
  argv : List String
  progress : ProgressFile
  userInput : List Char
  isWindows : Bool
  dockerInfoOk : Bool
  composePsNonempty : Bool
  composeUpOk : Bool
  composeDownOk : Bool
  winRedisOk : Bool
  backendRunning : Bool
  frontendRunning : Bool
  workerRunning : Bool
  infraUp : Bool
  backendDirExists : Bool
  fastapiOk : Bool
  dramatiqOk : Bool
  tailAvailable : Bool
  progMtime : Nat
  envFile : Option (Nat × List Char)
  regenOk : Bool
  rcB : Nat
  rcF : Nat
  rcW : Nat
  rcDown : Nat

/-- `input(...).strip().lower() == "y"` (the `[y/N]` stop prompts,
start.py:352, 388): only an explicit `y` proceeds, so the default is no. -/
def answerIsYes (input : List Char) : Bool :=
  pyLower (pyStrip input) = ['y']

/-- `input(...).strip().lower() != "n"` (the `[Y/n]` start prompts,
start.py:357, 369): anything but `n` proceeds, so the default is yes. -/
def answerNotNo (input : List Char) : Bool :=
  !(pyLower (pyStrip input) = ['n'])

/-- `check_docker_available` + `start_docker_services` (start.py:58-83):
probe `docker info`; if unavailable print and stop, else `docker compose
up -d` and report. -/
def start_docker_services (s : Sys) : List Event :=
  if !s.dockerInfoOk then
    [.dockerInfoCheck, .printInfo "docker-unavailable"]
  else
    [.dockerInfoCheck, .composeUpAll]
      ++ (if s.composeUpOk then
            [.printInfo "compose-started", .printInfo "access-url"]
          else [.printInfo "compose-up-failed"])

/-- `stop_docker_services` (start.py:86-91). -/
def stop_docker_services (s : Sys) : List Event :=
  [.composeDownAll]
    ++ (if s.composeDownOk then [.printInfo "compose-stopped"]
        else [.printInfo "compose-down-failed"])

/-- `stop_manual_services` (start.py:317-328).  On Windows it only prints
an instruction.  On POSIX it runs the three `pkill`s and `docker compose
down` without `check=True`, so the exit codes `rcB rcF rcW rcDown` of
those commands are ignored, every step is attempted, and the success
message always prints. -/
def stop_manual_services (isWindows : Bool) (rcB rcF rcW rcDown : Nat) : List Event :=
  if isWindows then
    [.printInfo "win-stop-instructions"]
  else
    [.printInfo "stopping-manual", .pkillB, .pkillF, .pkillW, .composeDownAll,
     .printInfo "stopped-best-effort"]

/-- The env refresh block of `start_manual_services` (start.py:153-192):
only entered when `.setup_progress` exists; when `should_regen` holds it
calls `SetupWizard.configure_env_files()`, success or failure each only
printing. -/
def envSyncEvents (s : Sys) : List Event :=
  if progressExists s.progress then
    if should_regen s.progMtime s.envFile then
      if s.regenOk then [.envRegenAttempt, .printInfo "env-refreshed"]
      else [.printInfo "env-refresh-warn"]
    else []
  else []

/-- `start_manual_services` (start.py:121-314) as a trace plus an optional
uncaught exception.  On Windows: prints only.  On POSIX: re-probe the
three patterns and abort if any matches; otherwise env sync, then the
sequential launch (infra, settle 2s, backend, settle 3s, frontend, settle
2s, worker) with per-service log truncation and import probes, then the
two log-tailing blocks.  When `backend/` is absent the backend launch is
skipped and `python_exec` is never bound, so the worker section dies with
an uncaught `UnboundLocalError` at start.py:275 after the frontend was
already spawned. -/
def start_manual_services (s : Sys) (supabaseLocal : Bool) : List Event × Option PyError :=
  if s.isWindows then
    ([.printInfo "win-no-auto-start", .printInstructions, .printInfo "win-use-wsl"], none)
  else
    let probeEvs : List Event :=
      [.pgrepCheck "python api.py", .pgrepCheck "next dev",
       .pgrepCheck "dramatiq run_agent_background"]
    if s.backendRunning || s.frontendRunning || s.workerRunning then
      (probeEvs ++ [.printInfo "already-running-abort"], none)
    else
      let pre : List Event :=
        probeEvs ++ envSyncEvents s
          ++ [.printInfo "step1-infra", .composeUpInfra, .printInfo "infra-started",
              .sleepSec 2, .printInfo "step2-backend"]
      let frontendEvs : List Event :=
        [.sleepSec 3, .printInfo "step3-frontend", .truncateLog 1, .spawnFrontend,
         .printInfo "frontend-started", .sleepSec 2, .printInfo "step4-worker",
         .truncateLog 2]
      if s.backendDirExists then
        let backendEvs : List Event :=
          [.truncateLog 0, .importCheck "fastapi"]
            ++ (if s.fastapiOk then [] else [.printInfo "fastapi-warn"])
            ++ [.spawnBackend, .printInfo "backend-started"]
        let workerEvs : List Event :=
          [.importCheck "dramatiq"]
            ++ (if s.dramatiqOk then [] else [.printInfo "dramatiq-warn"])
            ++ [.spawnWorker, .printInfo "worker-started"]
        let supEvs : List Event :=
          if supabaseLocal then [.printInfo "supabase-stop-tip"] else []
        let doneEvs : List Event :=
          [.printInfo "all-started", .printInfo "access-url", .printInfo "tail-tip"]
        let tail1 : List Event := if s.tailAvailable then [.tailLogs] else []
        let tail2 : List Event :=
          if s.tailAvailable then [.printInfo "tailing", .tailLogs]
          else [.printInfo "tail-missing"]
        (pre ++ backendEvs ++ frontendEvs ++ workerEvs ++ supEvs ++ doneEvs ++ tail1 ++ tail2, none)
      else
        (pre ++ [.printInfo "no-backend-dir"] ++ frontendEvs, some .unboundLocal)

/-- `"--help" in sys.argv or "-h" in sys.argv` (start.py:335). -/
def requestedHelp (argv : List String) : Bool :=
  argv.contains "--help" || argv.contains "-h"

/-- The Windows-manual convenience block of `main` (start.py:367-376):
instructions, a `[Y/n]` prompt (skipped under force) for starting redis
only, then the access tip. -/
def winManualEvents (s : Sys) (force : Bool) : List Event :=
  let redisTry : List Event :=
    [.composeUpRedis]
      ++ (if s.winRedisOk then [.printInfo "redis-started"]
          else [.printInfo "redis-failed"])
  let redis : List Event :=
    if force then redisTry
    else if answerNotNo s.userInput then .promptStartRedisWin :: redisTry
    else [.promptStartRedisWin]
  [.printInstructions] ++ redis ++ [.printInfo "win-access-tip"]

/-- `main` (start.py:331-399).  Reads the setup method (which may raise),
handles `--help`, warns and exits 1 when the method is falsy, then
dispatches to the docker path (prompted stop/start around the compose
probe) or the manual path (Windows convenience block, or the POSIX
aggregate-liveness check followed by prompted stop or unprompted start). -/
def main (s : Sys) : List Event × Outcome :=
  match get_setup_method s.progress, get_supabase_setup_method s.progress with
  | .error e, _ => ([], .uncaught e)
  | .ok _, .error e => ([], .uncaught e)
  | .ok m, .ok sm =>
    if requestedHelp s.argv then
      ([.printHelp], .exitCode 0)
    else
      let force := s.argv.contains "-f"
      if !truthy m then
        ([.warnNoSetup], .exitCode 1)
      else if optIsStr m "docker" then
        let probe : List Event := [.printInfo "docker-detected", .composePs]
        if s.composePsNonempty then
          if force then (probe ++ stop_docker_services s, .exitCode 0)
          else if answerIsYes s.userInput then
            (probe ++ [.promptStopDocker] ++ stop_docker_services s, .exitCode 0)
          else (probe ++ [.promptStopDocker, .printInfo "aborting"], .exitCode 0)
        else
          if force then (probe ++ start_docker_services s, .exitCode 0)
          else if answerNotNo s.userInput then
            (probe ++ [.promptStartDocker] ++ start_docker_services s, .exitCode 0)
          else (probe ++ [.promptStartDocker, .printInfo "aborting"], .exitCode 0)
      else
        let header : List Event := [.printInfo "manual-detected"]
        if s.isWindows then
          (header ++ winManualEvents s force, .exitCode 0)
        else
          let probes : List Event :=
            [.pgrepCheck "python api.py", .pgrepCheck "next dev",
             .pgrepCheck "dramatiq run_agent_background", .composePsRedis]
          let anyRunning :=
            s.backendRunning || s.frontendRunning || s.workerRunning || s.infraUp
          if anyRunning then
            if !force && !answerIsYes s.userInput then
              (header ++ probes ++ [.promptStopManual, .printInfo "aborting"], .exitCode 0)
            else
              let pe : List Event := if force then [] else [.promptStopManual]
              (header ++ probes ++ pe
                ++ stop_manual_services false s.rcB s.rcF s.rcW s.rcDown, .exitCode 0)
          else
            let res := start_manual_services s (optIsStr sm "local")
            (header ++ probes ++ [.printInfo "starting-all"] ++ res.1,
             match res.2 with
             | none => .exitCode 0
             | some e => .uncaught e)

/-! ## Helper definitions for the claims -/

/-- String literal to character list. -/
def strL (s : String) : List Char := s.toList

/-- The `key` member of the `"data"` object of the loaded progress value
(`None` when absent); this is what the two getters return whenever they do
not raise. -/
def dataLookup (pf : ProgressFile) (key : String) : Option JVal :=
  match load_progress pf with
  | .jobj kvs =>
    match (jlookup "data" kvs).getD (.jobj []) with
    | .jobj dkvs => jlookup key dkvs
    | _ => none
  | _ => none

/-- The spec's expected shape for a parsed setup-state file
(`{"step": int, "data": {...}}`, spec section 6). -/
def isExpectedShape : JVal → Bool
  | .jobj kvs =>
    (match jlookup "step" kvs with | some (.jnum _) => true | _ => false)
      && (match jlookup "data" kvs with | some (.jobj _) => true | _ => false)
  | _ => false

/-- Events that tear a service down. -/
def isStopEv : Event → Bool
  | .composeDownAll | .pkillB | .pkillF | .pkillW => true
  | _ => false

/-- Events that launch one of the manually managed services. -/
def isSpawnEv : Event → Bool
  | .spawnBackend | .spawnFrontend | .spawnWorker => true
  | _ => false

/-- Confirmation prompts. -/
def isPromptEv : Event → Bool
  | .promptStopDocker | .promptStartDocker | .promptStartRedisWin | .promptStopManual => true
  | _ => false

/-- Launch events of the manual start sequence, plus the settle delays. -/
def isLaunchOrSleep : Event → Bool
  | .composeUpInfra | .spawnBackend | .spawnFrontend | .spawnWorker => true
  | .sleepSec _ => true
  | _ => false

/-- Events the Windows manual path is allowed to emit: prints, the redis
prompt and the redis container start. -/
def winSafeEv : Event → Bool
  | .printHelp | .warnNoSetup | .printInfo _ | .printInstructions => true
  | .promptStartRedisWin | .composeUpRedis => true
  | _ => false

/-- Exactly one of three booleans is set. -/
def exactlyOne (a b c : Bool) : Bool :=
  (a && !b && !c) || (!a && b && !c) || (!a && !b && c)

/-- A reference system state: manual setup recorded, POSIX host, nothing
running, backend directory present, fresh env file with a non-empty
required key. -/
def baseSys : Sys where
  argv := []
  progress := .parsed (.jobj [("data", .jobj [("setup_method", .jstr "manual")])])
  userInput := []
  isWindows := false
  dockerInfoOk := true
  composePsNonempty := false
  composeUpOk := true
  composeDownOk := true
  winRedisOk := true
  backendRunning := false
  frontendRunning := false
  workerRunning := false
  infraUp := false
  backendDirExists := true
  fastapiOk := true
  dramatiqOk := true
  tailAvailable := false
  progMtime := 5
  envFile := some (10, strL "SUPABASE_JWT_SECRET=abc")
  regenOk := true
  rcB := 0
  rcF := 0
  rcW := 0
  rcDown := 0

/-- No setup-state file at all, no flags. -/
def cxC1 : Sys := { baseSys with progress := .missing }

/-- No setup-state file, force flag set (the flag is read after the
no-setup check, so it changes nothing). -/
def wC1 : Sys := { baseSys with progress := .missing, argv := ["-f"] }

/-- Manual mode, zero core service patterns matching, but the redis infra
container up; forced to skip the prompt. -/
def cxC3 : Sys := { baseSys with infraUp := true, argv := ["-f"] }

/-- Manual mode with exactly one core pattern (the backend) matching. -/
def partialSys : Sys := { baseSys with backendRunning := true }

/-- Help requested while the setup-state file holds a JSON array. -/
def cxC9 : Sys := { baseSys with argv := ["--help"], progress := .parsed (.jarr []) }

/-- Help requested with a well-shaped setup-state file. -/
def wC9 : Sys := { baseSys with argv := ["--help"] }

/-- The reference state on a Windows host. -/
def winSys : Sys := { baseSys with isWindows := true }

/-! ## Helper lemmas -/

theorem readable_getData (pf : ProgressFile) (k : String)
    (h : progressReadable pf = true) :
    getDataField pf k = Except.ok (dataLookup pf k) := by
  cases pf with
  | missing => rfl
  | unparsable => rfl
  | parsed v =>
    cases v with
    | jobj kvs =>
      simp only [getDataField, dataLookup, load_progress, progressReadable] at h ⊢
      cases hd : (jlookup "data" kvs).getD (.jobj []) <;> simp_all
    | jnull => simp [progressReadable] at h
    | jbool b => simp [progressReadable] at h
    | jnum n => simp [progressReadable] at h
    | jstr t => simp [progressReadable] at h
    | jarr xs => simp [progressReadable] at h

theorem envSync_cases (s : Sys) :
    envSyncEvents s = [] ∨
      envSyncEvents s = [.envRegenAttempt, .printInfo "env-refreshed"] ∨
      envSyncEvents s = [.printInfo "env-refresh-warn"] := by
  unfold envSyncEvents
  split
  · split
    · split
      · exact Or.inr (Or.inl rfl)
      · exact Or.inr (Or.inr rfl)
    · exact Or.inl rfl
  · exact Or.inl rfl

theorem envSync_no_stop (s : Sys) : (envSyncEvents s).any isStopEv = false := by
  rcases envSync_cases s with h | h | h <;> rw [h] <;> decide

theorem envSync_no_launch (s : Sys) :
    (envSyncEvents s).filter isLaunchOrSleep = [] := by
  rcases envSync_cases s with h | h | h <;> rw [h] <;> decide

theorem sdocker_no_stop (s : Sys) :
    (start_docker_services s).any isStopEv = false := by
  unfold start_docker_services
  split
  · decide
  · split <;> decide

theorem winManual_no_stop (s : Sys) (force : Bool) :
    (winManualEvents s force).any isStopEv = false := by
  unfold winManualEvents
  split <;> split <;> (try split) <;> decide

theorem winManual_safe (s : Sys) (force : Bool) :
    (winManualEvents s force).all winSafeEv = true := by
  unfold winManualEvents
  split <;> split <;> (try split) <;> decide

theorem sms_no_stop (s : Sys) (l : Bool) :
    ((start_manual_services s l).1).any isStopEv = false := by
  unfold start_manual_services
  rcases envSync_cases s with h | h | h <;> rw [h] <;> dsimp only
  all_goals repeat' split
  all_goals decide

theorem sms_spawns_frontend (s : Sys) (l : Bool) (hw : s.isWindows = false)
    (hb : s.backendRunning = false) (hf : s.frontendRunning = false)
    (hk : s.workerRunning = false) :
    Event.spawnFrontend ∈ ((start_manual_services s l).1) := by
  simp only [start_manual_services, hw, hb, hf, hk]
  repeat' split
  all_goals simp_all

/-! ## Claim C1 -/

/-- C1, counterexample: with no setup-state file (`cxC1.progress =
.missing`) the program prints the setup-not-detected warning and exits
with code 1; it never defaults to docker, never probes the orchestrator
(no `composePs` event) and does not exit 0, contrary to the claim. -/
theorem C1_counterexample :
    main cxC1 = ([Event.warnNoSetup], Outcome.exitCode 1) := by decide

/-- C1 (amended): when no setup-state file exists and help is not
requested, `main` prints the warning and exits with code 1, performing no
other action (start.py:343-345 calls `sys.exit(1)`). -/
theorem C1_missing_state_warns_exit1 (s : Sys)
    (hp : s.progress = ProgressFile.missing)
    (hh : requestedHelp s.argv = false) :
    main s = ([Event.warnNoSetup], Outcome.exitCode 1) := by
  have h1 : get_setup_method s.progress = .ok none := by rw [hp]; rfl
  have h2 : get_supabase_setup_method s.progress = .ok none := by rw [hp]; rfl
  simp [main, h1, h2, hh, truthy]

/-- C1, witness: the amended theorem at the concrete no-state system. -/
theorem C1_witness :
    wC1.progress = ProgressFile.missing ∧ requestedHelp wC1.argv = false ∧
      main wC1 = ([Event.warnNoSetup], Outcome.exitCode 1) :=
  ⟨rfl, by decide, C1_missing_state_warns_exit1 wC1 rfl (by decide)⟩

/-! ## Claim C2 -/

/-- C2, counterexample: a setup-state file whose contents are the valid
JSON array `[]` does not have the expected shape, yet resolving the setup
method raises `AttributeError` (Python: `[].get` does not exist) instead
of returning the unset result. -/
theorem C2_counterexample :
    isExpectedShape (JVal.jarr []) = false ∧
      get_setup_method (ProgressFile.parsed (JVal.jarr [])) =
        Except.error PyError.attributeError :=
  ⟨rfl, rfl⟩

/-- C2 (amended): for a missing setup-state file, or one whose contents
fail to parse as JSON at all, resolving the setup method returns the
unset result (`ok none`) and never raises; only files parsing to valid
JSON of an unexpected shape (non-object top level, or non-object `data`
member) raise. -/
theorem C2_missing_or_unparsable_unset (pf : ProgressFile)
    (h : pf = ProgressFile.missing ∨ pf = ProgressFile.unparsable) :
    get_setup_method pf = Except.ok none := by
  rcases h with h | h <;> rw [h] <;> rfl

/-- C2, witness: the amended theorem at the missing-file input. -/
theorem C2_witness :
    (ProgressFile.missing = ProgressFile.missing ∨
      ProgressFile.missing = ProgressFile.unparsable) ∧
      get_setup_method ProgressFile.missing = Except.ok none :=
  ⟨Or.inl rfl, C2_missing_or_unparsable_unset ProgressFile.missing (Or.inl rfl)⟩

/-! ## Claim C3 -/

/-- C3, counterexample: in manual mode with zero of the three core
service patterns matching but the redis infra container up, the
controller's action is stop (the `pkill`s run, and nothing is spawned),
contrary to the claim that zero core matches implies a start. -/
theorem C3_counterexample :
    cxC3.backendRunning = false ∧ cxC3.frontendRunning = false ∧
      cxC3.workerRunning = false ∧
      Event.pkillB ∈ (main cxC3).1 ∧ Event.spawnBackend ∉ (main cxC3).1 ∧
      (main cxC3).2 = Outcome.exitCode 0 := by decide

/-- C3 (amended): in manual POSIX mode, if none of the three core service
patterns matches AND the redis infra container is not up (start.py:383
folds `infra_up` into the aggregate), the controller proceeds to start:
the start banner is printed, services are launched, and no stop action
occurs. -/
theorem C3_all_stopped_starts (s : Sys)
    (hr : progressReadable s.progress = true)
    (ht : truthy (dataLookup s.progress "setup_method") = true)
    (hd : optIsStr (dataLookup s.progress "setup_method") "docker" = false)
    (hw : s.isWindows = false) (hh : requestedHelp s.argv = false)
    (hb : s.backendRunning = false) (hf : s.frontendRunning = false)
    (hk : s.workerRunning = false) (hi : s.infraUp = false) :
    Event.printInfo "starting-all" ∈ (main s).1 ∧
      Event.spawnFrontend ∈ (main s).1 ∧
      (main s).1.any isStopEv = false := by
  have h1 : get_setup_method s.progress =
      .ok (dataLookup s.progress "setup_method") :=
    readable_getData s.progress "setup_method" hr
  have h2 : get_supabase_setup_method s.progress =
      .ok (dataLookup s.progress "supabase_setup_method") :=
    readable_getData s.progress "supabase_setup_method" hr
  have hsp := sms_spawns_frontend s
    (optIsStr (dataLookup s.progress "supabase_setup_method") "local") hw hb hf hk
  have hns := sms_no_stop s
    (optIsStr (dataLookup s.progress "supabase_setup_method") "local")
  simp [main, h1, h2, hh, ht, hd, hw, hb, hf, hk, hi, List.any_append,
    hsp, hns, isStopEv]

/-- C3, witness: the amended theorem at the all-stopped reference state. -/
theorem C3_witness :
    baseSys.infraUp = false ∧ baseSys.backendRunning = false ∧
      (Event.printInfo "starting-all" ∈ (main baseSys).1 ∧
        Event.spawnFrontend ∈ (main baseSys).1 ∧
        (main baseSys).1.any isStopEv = false) :=
  ⟨rfl, rfl, C3_all_stopped_starts baseSys (by decide) (by decide) (by decide)
    rfl (by decide) rfl rfl rfl rfl⟩

/-! ## Claim C4 -/

/-- C4, counterexample: in manual POSIX mode with nothing running and no
force flag, `main` performs a start action (services are spawned) without
any confirmation prompt — start.py:395-398 starts "automatically without
prompting" — contradicting the claim that every start is preceded by a
prompt. -/
theorem C4_counterexample :
    baseSys.argv.contains "-f" = false ∧
      (main baseSys).2 = Outcome.exitCode 0 ∧
      Event.spawnBackend ∈ (main baseSys).1 ∧
      (main baseSys).1.any isPromptEv = false := by decide

/-- C4 (amended): without the force flag and with the default (empty)
prompt answer, no stop action is ever executed in any mode — the stop
prompts default to "no" — while the container-mode start, after its
prompt, does proceed — its prompt defaults to "yes".  (The manual POSIX
start, as the counterexample shows, runs without any prompt at all.) -/
theorem C4_prompt_defaults (s : Sys)
    (hf : s.argv.contains "-f" = false) (hi : s.userInput = []) :
    (main s).1.any isStopEv = false ∧
      (progressReadable s.progress = true →
        dataLookup s.progress "setup_method" = some (JVal.jstr "docker") →
        requestedHelp s.argv = false →
        s.composePsNonempty = false → s.dockerInfoOk = true →
        Event.promptStartDocker ∈ (main s).1 ∧
          Event.composeUpAll ∈ (main s).1) := by
  have hy : answerIsYes s.userInput = false := by rw [hi]; decide
  have hn : answerNotNo s.userInput = true := by rw [hi]; decide
  have hf' : ¬("-f" ∈ s.argv) := by simpa using hf
  constructor
  · cases h1 : get_setup_method s.progress with
    | error e => simp [main, h1]
    | ok m =>
      cases h2 : get_supabase_setup_method s.progress with
      | error e => simp [main, h1, h2]
      | ok sm =>
        by_cases hh : requestedHelp s.argv = true
        · simp [main, h1, h2, hh, isStopEv]
        · simp only [Bool.not_eq_true] at hh
          simp only [main, h1, h2, hh, hf, hy, hn]
          repeat' split
          all_goals
            simp_all [List.any_append, sms_no_stop, sdocker_no_stop,
              winManual_no_stop, isStopEv]
  · intro hr hm hh hps hdok
    have htr : truthy (some (JVal.jstr "docker")) = true := by decide
    have hod : optIsStr (some (JVal.jstr "docker")) "docker" = true := by decide
    have h1 : get_setup_method s.progress = .ok (some (JVal.jstr "docker")) := by
      unfold get_setup_method
      rw [readable_getData s.progress "setup_method" hr, hm]
    have h2 : get_supabase_setup_method s.progress =
        .ok (dataLookup s.progress "supabase_setup_method") :=
      readable_getData s.progress "supabase_setup_method" hr
    simp [main, h1, h2, hh, hf', hy, hn, hps, htr, hod,
      start_docker_services, hdok]

/-- C4, witness: the amended theorem at the reference state (no force
flag, empty input). -/
theorem C4_witness :
    baseSys.argv.contains "-f" = false ∧ baseSys.userInput = [] ∧
      ((main baseSys).1.any isStopEv = false ∧
        (progressReadable baseSys.progress = true →
          dataLookup baseSys.progress "setup_method" = some (JVal.jstr "docker") →
          requestedHelp baseSys.argv = false →
          baseSys.composePsNonempty = false → baseSys.dockerInfoOk = true →
          Event.promptStartDocker ∈ (main baseSys).1 ∧
            Event.composeUpAll ∈ (main baseSys).1)) :=
  ⟨by decide, rfl, C4_prompt_defaults baseSys (by decide) rfl⟩

/-! ## Claim C5 -/

/-- C5: in manual POSIX mode with exactly one of the three core service
patterns matching, the controller never launches anything in any branch
(no spawn events), and whenever the stop gate passes (force flag or an
explicit yes) it terminates all three patterns and brings infrastructure
down — i.e. the partial state resolves to stop, never to a fill-in
start. -/
theorem C5_partial_running_stops (s : Sys)
    (hr : progressReadable s.progress = true)
    (ht : truthy (dataLookup s.progress "setup_method") = true)
    (hd : optIsStr (dataLookup s.progress "setup_method") "docker" = false)
    (hw : s.isWindows = false) (hh : requestedHelp s.argv = false)
    (hone : exactlyOne s.backendRunning s.frontendRunning s.workerRunning = true) :
    (main s).1.any isSpawnEv = false ∧
      (s.argv.contains "-f" = true ∨ answerIsYes s.userInput = true →
        Event.pkillB ∈ (main s).1 ∧ Event.pkillF ∈ (main s).1 ∧
          Event.pkillW ∈ (main s).1 ∧ Event.composeDownAll ∈ (main s).1) := by
  have h1 : get_setup_method s.progress =
      .ok (dataLookup s.progress "setup_method") :=
    readable_getData s.progress "setup_method" hr
  have h2 : get_supabase_setup_method s.progress =
      .ok (dataLookup s.progress "supabase_setup_method") :=
    readable_getData s.progress "supabase_setup_method" hr
  have hrun : (s.backendRunning || s.frontendRunning || s.workerRunning
      || s.infraUp) = true := by
    cases hb : s.backendRunning <;> cases hf2 : s.frontendRunning <;>
      cases hk : s.workerRunning <;> simp_all [exactlyOne]
  by_cases hfo : "-f" ∈ s.argv <;> by_cases hy : answerIsYes s.userInput = true <;>
    simp [main, h1, h2, hh, ht, hd, hw, hrun, hfo, hy,
      stop_manual_services, isSpawnEv, List.any_append]

/-- C5, witness: the theorem with only the backend pattern matching. -/
theorem C5_witness :
    exactlyOne partialSys.backendRunning partialSys.frontendRunning
        partialSys.workerRunning = true ∧
      ((main partialSys).1.any isSpawnEv = false ∧
        (partialSys.argv.contains "-f" = true ∨
            answerIsYes partialSys.userInput = true →
          Event.pkillB ∈ (main partialSys).1 ∧
            Event.pkillF ∈ (main partialSys).1 ∧
            Event.pkillW ∈ (main partialSys).1 ∧
            Event.composeDownAll ∈ (main partialSys).1)) :=
  ⟨by decide, C5_partial_running_stops partialSys (by decide) (by decide)
    (by decide) rfl (by decide) (by decide)⟩

/-! ## Claim C6 -/

/-- C6, counterexample: a fresh env file (mtime 5 > store mtime 1) whose
content is `OLD_SUPABASE_JWT_SECRET=x` defines no `SUPABASE_JWT_SECRET`
key at all (`hasKeyLine` is false), so the claim's condition demands
regeneration; but the code's substring scan (start.py:169) finds
`"SUPABASE_JWT_SECRET="` inside the other variable's name, its line filter
(start.py:170) then matches nothing, and no regeneration happens. -/
theorem C6_counterexample :
    should_regen 1 (some (5, strL "OLD_SUPABASE_JWT_SECRET=x")) = false ∧
      hasKeyLine (strL "OLD_SUPABASE_JWT_SECRET=x") = false ∧
      specRegenCondition 1 (some (5, strL "OLD_SUPABASE_JWT_SECRET=x")) = true := by
  decide

/-- C6 (amended): regeneration triggers if and only if the env file is
absent (with the setup store's mtime positive), or its mtime is strictly
older than the store's, or the key marker string is absent from the whole
content, or the marker is present and the first line defining the key has
an empty value.  A fresh file with a non-empty key line still never
triggers; but key absence is judged by substring scan, so content that
merely mentions the marker inside another token counts as having the
key. -/
theorem C6_regen_decision (progMtime : Nat) (env : Option (Nat × List Char)) :
    should_regen progMtime env = codeRegenCondition progMtime env := by
  cases env with
  | none => simp [should_regen, codeRegenCondition]
  | some p =>
    obtain ⟨m, c⟩ := p
    by_cases hs : hasSub jwtKeyL c = true
    · cases hk : keyLines c with
      | nil => simp [should_regen, codeRegenCondition, keyValEmpty, hs, hk]
      | cons ln rest =>
        by_cases he : (pyStrip (afterFirstEq ln)).isEmpty = true <;>
          simp [should_regen, codeRegenCondition, keyValEmpty, hs, hk, he]
    · simp [should_regen, codeRegenCondition, keyValEmpty, hs]

/-! ## Claim C7 -/

/-- C7: on a POSIX host with no service already running and the backend
directory present, the manual start sequence, restricted to launch and
settle events, is exactly infrastructure, 2s delay, backend, 3s delay,
frontend, 2s delay, worker — so every launch is separated from the next
by a settle delay and a later service is never launched before an earlier
one. -/
theorem C7_launch_order (s : Sys) (l : Bool)
    (hw : s.isWindows = false) (hb : s.backendRunning = false)
    (hf : s.frontendRunning = false) (hk : s.workerRunning = false)
    (hd : s.backendDirExists = true) :
    ((start_manual_services s l).1).filter isLaunchOrSleep
      = [Event.composeUpInfra, Event.sleepSec 2, Event.spawnBackend,
         Event.sleepSec 3, Event.spawnFrontend, Event.sleepSec 2,
         Event.spawnWorker] := by
  cases hfa : s.fastapiOk <;> cases hdr : s.dramatiqOk <;>
    cases hta : s.tailAvailable <;> cases l <;>
    rcases envSync_cases s with h | h | h <;>
    simp [start_manual_services, hw, hb, hf, hk, hd, h, hfa, hdr, hta,
      isLaunchOrSleep]

/-- C7, witness: the launch order at the all-stopped reference state. -/
theorem C7_witness :
    baseSys.isWindows = false ∧ baseSys.backendDirExists = true ∧
      ((start_manual_services baseSys false).1).filter isLaunchOrSleep
        = [Event.composeUpInfra, Event.sleepSec 2, Event.spawnBackend,
           Event.sleepSec 3, Event.spawnFrontend, Event.sleepSec 2,
           Event.spawnWorker] :=
  ⟨rfl, rfl, C7_launch_order baseSys false rfl rfl rfl rfl rfl⟩

/-! ## Claim C8 -/

/-- C8: the POSIX manual stop runs all three pattern terminations and then
the orchestrator teardown, and prints the success message, whatever exit
codes the individual `pkill`s and the `docker compose down` return
(start.py:324-327 passes no `check=True`, so failures — including
"no process matched" — are ignored and never interrupt the sequence). -/
theorem C8_stop_best_effort (rcB rcF rcW rcDown : Nat) :
    stop_manual_services false rcB rcF rcW rcDown
      = [Event.printInfo "stopping-manual", Event.pkillB, Event.pkillF,
         Event.pkillW, Event.composeDownAll,
         Event.printInfo "stopped-best-effort"] := rfl

/-! ## Claim C9 -/

/-- C9, counterexample: `--help` in the argument vector, but the
setup-state file holds the JSON array `[]`: `main` reads the setup method
before checking for `--help` (start.py:332 precedes 335), so it dies with
an uncaught `AttributeError` — no usage text, no exit code 0 — and the
claim's "regardless of the setup state" fails. -/
theorem C9_counterexample :
    requestedHelp cxC9.argv = true ∧
      main cxC9 = ([], Outcome.uncaught PyError.attributeError) := by decide

/-- C9 (amended): for every argument vector containing `--help` or `-h`,
provided the setup-state file is absent, unparseable, or of the expected
object shape (so that reading the setup method does not raise), the
program prints only the usage text and exits 0 with no start, stop,
launch or file-writing side effect. -/
theorem C9_help_exits_clean (s : Sys)
    (hh : requestedHelp s.argv = true)
    (hr : progressReadable s.progress = true) :
    main s = ([Event.printHelp], Outcome.exitCode 0) := by
  have h1 : get_setup_method s.progress =
      .ok (dataLookup s.progress "setup_method") :=
    readable_getData s.progress "setup_method" hr
  have h2 : get_supabase_setup_method s.progress =
      .ok (dataLookup s.progress "supabase_setup_method") :=
    readable_getData s.progress "supabase_setup_method" hr
  simp [main, h1, h2, hh]

/-- C9, witness: help with a readable setup-state file. -/
theorem C9_witness :
    requestedHelp wC9.argv = true ∧ progressReadable wC9.progress = true ∧
      main wC9 = ([Event.printHelp], Outcome.exitCode 0) :=
  ⟨by decide, by decide, C9_help_exits_clean wC9 (by decide) (by decide)⟩

/-! ## Claim C10 -/

/-- C10: on Windows in manual mode, `main`'s whole trace consists of
prints, the redis prompt and (at most) the redis cache container start —
never a spawn, a pkill or a log truncation — and it exits 0; moreover the
manual start helper on Windows only prints the instructions, and the
manual stop helper on Windows only prints its instruction message,
whatever the input state. -/
theorem C10_windows_manual_prints_only (s : Sys)
    (hw : s.isWindows = true)
    (hr : progressReadable s.progress = true)
    (ht : truthy (dataLookup s.progress "setup_method") = true)
    (hd : optIsStr (dataLookup s.progress "setup_method") "docker" = false)
    (hh : requestedHelp s.argv = false) :
    ((main s).1.all winSafeEv = true ∧ (main s).2 = Outcome.exitCode 0) ∧
      (∀ (s2 : Sys) (l : Bool), s2.isWindows = true →
        (start_manual_services s2 l).1
          = [Event.printInfo "win-no-auto-start", Event.printInstructions,
             Event.printInfo "win-use-wsl"]) ∧
      (∀ a b c d : Nat, stop_manual_services true a b c d
        = [Event.printInfo "win-stop-instructions"]) := by
  refine ⟨?_, ?_, ?_⟩
  · have h1 : get_setup_method s.progress =
        .ok (dataLookup s.progress "setup_method") :=
      readable_getData s.progress "setup_method" hr
    have h2 : get_supabase_setup_method s.progress =
        .ok (dataLookup s.progress "supabase_setup_method") :=
      readable_getData s.progress "supabase_setup_method" hr
    simp [main, h1, h2, hh, ht, hd, hw, List.all_append, winManual_safe,
      winSafeEv]
  · intro s2 l hw2
    simp [start_manual_services, hw2]
  · intro a b c d
    rfl

/-- C10, witness: the theorem at the reference state on a Windows host. -/
theorem C10_witness :
    winSys.isWindows = true ∧
      ((main winSys).1.all winSafeEv = true ∧
        (main winSys).2 = Outcome.exitCode 0) :=
  ⟨rfl, (C10_windows_manual_prints_only winSys rfl (by decide) (by decide)
    (by decide) (by decide)).1⟩

end Suna
